import Mathlib

/-
  Verification development for the network-stability test tool (src/main.py).

  The Python source is shallowly embedded: each method that a claim touches
  becomes a Lean function over explicit inputs (subprocess results become
  `Option String` values: `none` models an exception / missing output, matching
  the Python `None`), machine floats for timestamps and rates become `ℚ`, and
  Python `int` becomes `Int`.
-/

namespace OTG

/-- Python substring test `needle in hay`, on character lists:
`true` iff `needle` occurs contiguously inside `hay`. -/
def listContains (needle : List Char) : List Char → Bool
  | [] => needle.isEmpty
  | c :: rest => needle.isPrefixOf (c :: rest) || listContains needle rest

/-- Python `needle in hay` on strings. -/
def pyIn (needle hay : String) : Bool :=
  listContains needle.toList hay.toList

/-- Python truthiness of an optional string: `None` and `""` are falsy. -/
def truthy : Option String → Bool
  | none => false
  | some s => !(s == "")

/-- Split a character list at every character satisfying `p`, keeping empty
pieces (the semantics of Python `str.split(sep)` for a one-character
separator, at the character level). -/
def splitIf (p : Char → Bool) : List Char → List (List Char)
  | [] => [[]]
  | c :: rest =>
    let r := splitIf p rest
    if p c then [] :: r
    else
      match r with
      | g :: gs => (c :: g) :: gs
      | [] => [[c]]

/-- Python `s.split(sep)` for a one-character separator: all occurrences,
empty pieces kept. -/
def pySplitOn (sep : Char) (s : String) : List String :=
  (splitIf (fun c => c == sep) s.toList).map String.mk

/-- Python `str.split()` (no argument): split on whitespace runs, dropping
empty tokens. -/
def pySplitWs (s : String) : List String :=
  ((splitIf Char.isWhitespace s.toList).map String.mk).filter (fun t => !(t == ""))

/-- Python `str.strip()`: drop leading and trailing whitespace. -/
def pyStrip (s : String) : String :=
  String.mk (((s.toList.dropWhile Char.isWhitespace).reverse.dropWhile
    Char.isWhitespace).reverse)

/-- Python `str.lower()` (ASCII range, which covers every brand token the
source compares against). -/
def pyLower (s : String) : String :=
  String.mk (s.toList.map Char.toLower)

/-- Python `s.replace(old, new)` for one-character `old` and `new` (the only
form the source uses: `model.replace(" ", "_")`). -/
def pyReplaceChar (old new : Char) (s : String) : String :=
  String.mk (s.toList.map (fun c => if c == old then new else c))

/-- Python `sep.join(parts)`. -/
def pyJoin (sep : String) : List String → String
  | [] => ""
  | [x] => x
  | x :: y :: rest => x ++ sep ++ pyJoin sep (y :: rest)

/-- Python `int(s)` on an (optionally signed) digit string; `none` models the
`ValueError` raised on any other input. -/
def digitsToNat : List Char → Option Nat
  | [] => none
  | cs =>
    if cs.all Char.isDigit then
      some (cs.foldl (fun a c => a * 10 + (c.toNat - 48)) 0)
    else none

/-- Python `int(s)` returning `none` on parse failure. -/
def pyInt (s : String) : Option Int :=
  match s.toList with
  | '-' :: rest => (digitsToNat rest).map (fun n => -(n : Int))
  | '+' :: rest => (digitsToNat rest).map (fun n => (n : Int))
  | cs => (digitsToNat cs).map (fun n => (n : Int))

end OTG

namespace OTG

/-! ## NetworkMonitor: ping loop (src/main.py lines 198-209)

The loop body first probes reachability with
`adb shell ping -c 1 -w 1 223.5.5.5`; on failure it retries once after 0.5s
and, if the retry also fails, emits one error signal and breaks.  We embed the
loop as a recursion over the list of successive `run_cmd` ping results; an
exhausted list models the monitor being stopped externally.  The result is
(number of error signals emitted, whether the loop broke on failure). -/

/-- The success test on one ping result:
`not (not result or "1 packets transmitted, 1 received" not in result)`. -/
def pingOk : Option String → Bool
  | none => false
  | some s => !(s == "") && pyIn "1 packets transmitted, 1 received" s

/-- The ping part of `NetworkMonitor.run`: consume successive probe results;
a failed probe is retried once; two consecutive failures emit one error
signal and break. -/
def monitorRun : List (Option String) → Nat × Bool
  | [] => (0, false)
  | r1 :: rest =>
    if pingOk r1 then monitorRun rest
    else
      match rest with
      | [] => (0, false)
      | r2 :: rest2 =>
        if pingOk r2 then monitorRun rest2
        else (1, true)

/-! ## NetworkMonitor: speed sampling (src/main.py lines 211-228) -/

/-- The stored monitor baseline: `last_rx`, `last_tx`, `last_time`. -/
structure MonitorState where
  last_rx : Int
  last_tx : Int
  last_time : ℚ
deriving DecidableEq, Repr

/-- One pass of the speed-calculation part of `NetworkMonitor.run`: given the
fresh counters and time, emit a `(rx_speed, tx_speed)` sample and update the
baseline iff at least 1 second elapsed. -/
def speedStep (st : MonitorState) (current_rx current_tx : Int)
    (current_time : ℚ) : MonitorState × Option (ℚ × ℚ) :=
  let duration := current_time - st.last_time
  if duration ≥ 1 then
    let rx_speed := ((current_rx - st.last_rx : Int) : ℚ) / duration
    let tx_speed := ((current_tx - st.last_tx : Int) : ℚ) / duration
    (⟨current_rx, current_tx, current_time⟩, some (rx_speed, tx_speed))
  else
    (st, none)

/-! ## NetworkMonitor.get_traffic_stats (src/main.py lines 165-190)

Parses `adb shell cat /proc/net/dev` output: for each line containing `":"`,
split at the colons, strip the interface name, skip `lo`, whitespace-split the
post-colon data, and when it has at least 9 numeric-at-0-and-8 fields add
field 0 to `total_rx` and field 8 to `total_tx`.  A parse failure inside the
`try` adds nothing for that line. -/

/-- The `lo`-skip, field-count and int-parse part of the loop body, applied to
the stripped interface name and the whitespace-split post-colon data: field 0
is the receive bytes, field 8 the transmit bytes; a `try` failure (either
field non-numeric) or fewer than 9 fields contributes nothing. -/
def dataStats (iface : String) (data : List String) : Int × Int :=
  if iface == "lo" then (0, 0)
  else if data.length ≥ 9 then
    match pyInt (data.getD 0 ""), pyInt (data.getD 8 "") with
    | some rx, some tx => (rx, tx)
    | _, _ => (0, 0)
  else (0, 0)

/-- The contribution of a single `/proc/net/dev` line to the running totals:
lines without `":"` are ignored; otherwise the part before the first colon is
the interface name and the part up to the next colon holds the data fields. -/
def lineStats (line : String) : Int × Int :=
  if pyIn ":" line then
    let parts := pySplitOn ':' line
    dataStats (pyStrip (parts.headD "")) (pySplitWs (parts.getD 1 ""))
  else (0, 0)

/-- Totals accumulated over a list of lines. -/
def trafficTotals (lines : List String) : Int × Int :=
  lines.foldl (fun acc line => (acc.1 + (lineStats line).1, acc.2 + (lineStats line).2)) (0, 0)

/-- Embeds `NetworkMonitor.get_traffic_stats`: `none`/empty output gives `(0, 0)`;
otherwise the lines of the output are folded with `lineStats`. -/
def get_traffic_stats (output : Option String) : Int × Int :=
  match output with
  | none => (0, 0)
  | some s => if s == "" then (0, 0) else trafficTotals (pySplitOn '\n' s)

/-! ## AdbWorker.run_cmd (src/main.py lines 75-91) -/

/-- Outcome of the `subprocess.run` call inside `run_cmd`: either the spawn
raised an exception, or the process completed with an exit code and stdout
text (the call passes no `check=True` and no `timeout`). -/
inductive SpawnOutcome where
  | raised (msg : String)
  | completed (exitCode : Int) (stdout : String)
deriving DecidableEq, Repr

/-- The argv assembled by `run_cmd`: the adb path, then `-s <device_id>` when
a device handle is known, then the arguments of the caller. -/
def build_cmd (adb_path : String) (device_id : Option String) (args : List String) : List String :=
  [adb_path] ++ (match device_id with
    | some d => if d == "" then [] else ["-s", d]
    | none => []) ++ args

/-- Embeds `AdbWorker.run_cmd`: `None` when the adb path is falsy or the spawn
raised; otherwise `result.stdout.strip()` regardless of the exit code. -/
def runCmd (adb_path : String) (outcome : SpawnOutcome) : Option String :=
  if adb_path == "" then none
  else
    match outcome with
    | .raised _ => none
    | .completed _ stdout => some (pyStrip stdout)

/-! ## AdbWorker.run: device-presence polling (src/main.py lines 41-69) -/

/-- Parse the stdout of `adb devices`: strip, drop the header line, keep lines
that are non-blank and contain `"device"`, and take, from each kept line, its first
whitespace token. -/
def parse_devices (stdoutRaw : String) : List String :=
  let output := pyStrip stdoutRaw
  let lines := (pySplitOn '\n' output).drop 1
  (lines.filter (fun l => !(pyStrip l == "") && pyIn "device" l)).map
    (fun l => (pySplitWs l).headD "")

/-- A presence event emitted by the polling loop. -/
inductive PresenceEvent where
  | connected (id : String)
  | disconnected
deriving DecidableEq, Repr

/-- One iteration of the polling loop, given the current `device_id` and the
parsed device list: emit `connected` only when the first id differs from the
stored one, `disconnected` only when the list is empty and an id was stored. -/
def presenceStep (device_id : Option String) (devices : List String) :
    Option String × Option PresenceEvent :=
  match devices with
  | d :: _ =>
    if device_id ≠ some d then (some d, some (.connected d))
    else (device_id, none)
  | [] =>
    match device_id with
    | some _ => (none, some .disconnected)
    | none => (none, none)

/-- Run the polling loop over a list of parsed device lists, returning the
final `device_id` and every event emitted, in order. -/
def pollRun (device_id : Option String) : List (List String) → Option String × List PresenceEvent
  | [] => (device_id, [])
  | ds :: rest =>
    let (id1, ev) := presenceStep device_id ds
    let (idF, evs) := pollRun id1 rest
    (idF, (match ev with | some e => [e] | none => []) ++ evs)

/-! ## AdbWorker.get_network_type (src/main.py lines 99-132)

Inputs are the three `run_cmd` results (ping, `dumpsys wifi`, `ip -o -4 addr
show up`); the `dumpsys wifi` branch is a no-op in the source (its body is
`pass`). -/

/-- The interface-kind tags collected from the `ip` output flags, in source
order: wlan → Wi-Fi, rmnet/ccmni → 移动数据, eth → 有线网络. -/
def classify_types (hasWlan hasMobile hasEth : Bool) : List String :=
  (if hasWlan then ["Wi-Fi"] else []) ++
  (if hasMobile then ["移动数据"] else []) ++
  (if hasEth then ["有线网络"] else [])

/-- The final status string built from the collected tags and the internet
reachability flag. -/
def render_status (net_types : List String) (has_internet : Bool) : String :=
  if net_types = [] then "无网络连接 (未检测到有效IP)"
  else
    let status_str := pyJoin " + " net_types
    if has_internet then status_str ++ " (互联网正常)"
    else status_str ++ " (无互联网访问)"

/-- Embeds `AdbWorker.get_network_type` on the three shell-command results. -/
def get_network_type (ping_res wifi_dump ip_info : Option String) : String :=
  let has_internet := truthy ping_res && pyIn "1 received" (ping_res.getD "")
  let _wifi_enabled := truthy wifi_dump && pyIn "Wi-Fi is enabled" (wifi_dump.getD "")
  let net_types :=
    if truthy ip_info then
      classify_types (pyIn "wlan" (ip_info.getD ""))
        (pyIn "rmnet" (ip_info.getD "") || pyIn "ccmni" (ip_info.getD ""))
        (pyIn "eth" (ip_info.getD ""))
    else []
  render_status net_types has_internet

/-! ## MainWindow: bugreport trigger policy (src/main.py lines 459-461,
504-511, 521-549) -/

/-- The brand predicate in `MainWindow.on_net_error`:
`brand and ("xiaomi" in brand.lower() or "redmi" in brand.lower())`. -/
def is_xiaomi (brand : Option String) : Bool :=
  truthy brand &&
    (pyIn "xiaomi" (pyLower (brand.getD "")) || pyIn "redmi" (pyLower (brand.getD "")))

/-- Outcome of one `on_net_error` callback: the updated
`has_triggered_bugreport` flag, whether a `BugReportThread` was started, and
whether the plain critical error box was shown immediately. -/
def on_net_error (has_triggered_bugreport : Bool) (brand : Option String) :
    Bool × Bool × Bool :=
  if !has_triggered_bugreport && is_xiaomi brand then (true, true, false)
  else (has_triggered_bugreport, false, true)

/-- The user actions that touch the trigger flag: a fresh start
(`start_new_test`, also reached from `restart_test`), a resume
(`resume_test`), and a network-failure callback carrying the brand read at
that moment. -/
inductive SessionEvent where
  | freshStart
  | resume
  | netError (brand : Option String)
deriving DecidableEq, Repr

/-- How one event updates `has_triggered_bugreport`, paired with whether a
capture job was launched: `start_new_test` resets the flag to `False` on its
first line; `resume_test` leaves it untouched. -/
def sessionStep (flag : Bool) : SessionEvent → Bool × Bool
  | .freshStart => (false, false)
  | .resume => (flag, false)
  | .netError brand =>
    let (f, launched, _) := on_net_error flag brand
    (f, launched)

/-- Number of capture jobs launched over a list of events, starting from a
given flag value. -/
def captureCount (flag : Bool) : List SessionEvent → Nat
  | [] => 0
  | e :: es =>
    let (f, launched) := sessionStep flag e
    (if launched then 1 else 0) + captureCount f es

/-! ## BugReportThread.run and MainWindow.on_bugreport_finished
(src/main.py lines 252-275, 551-561) -/

/-- Outcome of the `try` body of `BugReportThread.run` (model fetch, directory
computation and `capture_bugreport` together): success, or an exception with
its text. -/
inductive CaptureOutcome where
  | success
  | failure (exc : String)
deriving DecidableEq, Repr

/-- The `(save_path, error_msg)` pair emitted on `finished_signal`:
on success the computed save directory together with the triggering network
error; on an exception the empty path together with the exception text. -/
def bugreport_emit (date_str : String) (modelRes : Option String)
    (base_path : String) (error_msg : String) (outcome : CaptureOutcome) :
    String × String :=
  match outcome with
  | .failure e => ("", e)
  | .success =>
    let model := if truthy modelRes then modelRes.getD "" else "Unknown"
    let model := pyReplaceChar ' ' '_' (pyStrip model)
    let dir_name := date_str ++ "-" ++ model ++ "-NetworkError"
    (base_path ++ "/" ++ dir_name, error_msg)

/-- The final critical-dialog text built by `MainWindow.on_bugreport_finished`
from the emitted `(save_path, error_msg)` pair. -/
def on_bugreport_finished (save_path error_msg : String) : String :=
  if !(save_path == "") then
    "❌ 检测到网络故障！\n\n" ++ error_msg ++ "\n\n✅ 系统日志已保存至:\n" ++ save_path
  else
    "❌ 检测到网络故障！\n\n" ++ error_msg ++ "\n\n⚠️ 日志抓取失败: " ++ error_msg

/-! ## Helper lemmas -/

/-- Over any run, the ping loop emits at most one error signal, and exactly
one whenever it breaks on failure. -/
theorem monitorRun_le_one (probes : List (Option String)) :
    (monitorRun probes).1 ≤ 1 ∧ ((monitorRun probes).2 = true → (monitorRun probes).1 = 1) := by
  induction probes using monitorRun.induct with
  | case1 => simp [monitorRun]
  | case2 r1 rest h ih =>
    cases rest with
    | nil => simp [monitorRun, h]
    | cons r2 rest2 => simpa [monitorRun, h] using ih
  | case3 r1 h => simp [monitorRun, h]
  | case4 r1 h1 r2 rest2 h2 ih => simpa [monitorRun, h1, h2] using ih
  | case5 r1 h1 r2 rest2 h2 => simp [monitorRun, h1, h2]

/-- Running `speedStep` below a 1-second interval: no sample, baseline kept. -/
theorem speedStep_lt_one (st : MonitorState) (rx tx : Int) (t : ℚ)
    (h : t - st.last_time < 1) : speedStep st rx tx t = (st, none) := by
  simp [speedStep, not_le.mpr h]

/-- Running `speedStep` at a ≥ 1-second interval: sample emitted, baseline updated. -/
theorem speedStep_ge_one (st : MonitorState) (rx tx : Int) (t : ℚ)
    (h : t - st.last_time ≥ 1) :
    speedStep st rx tx t =
      (⟨rx, tx, t⟩, some (((rx - st.last_rx : Int) : ℚ) / (t - st.last_time),
                          ((tx - st.last_tx : Int) : ℚ) / (t - st.last_time))) := by
  simp [speedStep, h]

/-! ## Claims -/

/-- C1: In the `NetworkMonitor.run` ping loop, a failed reachability probe is
retried exactly once: two consecutive failed probes make the loop emit exactly
one error signal and break (terminal); a failed probe followed by a successful
retry emits nothing and the loop continues; an all-successful run emits
nothing; and every run emits at most one error signal, exactly one when it
breaks on failure. -/
theorem C1_ping_retry_once :
    (∀ r1 r2 rest, pingOk r1 = false → pingOk r2 = false →
        monitorRun (r1 :: r2 :: rest) = (1, true)) ∧
    (∀ r1 r2 rest, pingOk r1 = false → pingOk r2 = true →
        monitorRun (r1 :: r2 :: rest) = monitorRun rest) ∧
    (∀ probes, (∀ r ∈ probes, pingOk r = true) → monitorRun probes = (0, false)) ∧
    (∀ probes, (monitorRun probes).1 ≤ 1 ∧
        ((monitorRun probes).2 = true → (monitorRun probes).1 = 1)) := by
  refine ⟨?_, ?_, ?_, monitorRun_le_one⟩
  · intro r1 r2 rest h1 h2
    simp [monitorRun, h1, h2]
  · intro r1 r2 rest h1 h2
    simp [monitorRun, h1, h2]
  · intro probes h
    induction probes with
    | nil => simp [monitorRun]
    | cons r rest ih =>
      have hr : pingOk r = true := h r (List.mem_cons_self r rest)
      have hrest : ∀ x ∈ rest, pingOk x = true := fun x hx => h x (List.mem_cons_of_mem r hx)
      cases rest with
      | nil => simp [monitorRun, hr]
      | cons r2 rest2 => simpa [monitorRun, hr] using ih hrest

/-- Witness for C1 at concrete probe results: two `none` results (exceptions)
emit one error signal and stop; a failure followed by the canonical success
output emits nothing. -/
theorem C1_witness :
    monitorRun [none, none] = (1, true) ∧
    monitorRun [none, some "1 packets transmitted, 1 received, 0% packet loss"] =
      monitorRun [] :=
  ⟨C1_ping_retry_once.1 none none [] rfl rfl,
   C1_ping_retry_once.2.1 none
     (some "1 packets transmitted, 1 received, 0% packet loss") [] rfl (by decide)⟩

/-- C2: In the speed-calculation part of `NetworkMonitor.run`, when less than
1 second elapsed since the stored baseline no sample is emitted and the
baseline is unchanged; when at least 1 second elapsed the emitted sample is
(current counters − baseline counters) / elapsed interval and the baseline is
updated to the current snapshot. -/
theorem C2_speed_interval (st : MonitorState) (rx tx : Int) (t : ℚ) :
    (t - st.last_time < 1 → speedStep st rx tx t = (st, none)) ∧
    (t - st.last_time ≥ 1 →
      speedStep st rx tx t =
        (⟨rx, tx, t⟩, some (((rx - st.last_rx : Int) : ℚ) / (t - st.last_time),
                            ((tx - st.last_tx : Int) : ℚ) / (t - st.last_time)))) :=
  ⟨speedStep_lt_one st rx tx t, speedStep_ge_one st rx tx t⟩

/-- Witness for C2 at concrete values: over a 2-second interval with counters
rising from 0 to 10/20 the sample is (5, 10) and the baseline is updated; over
a half-second interval nothing is emitted and the baseline is kept. -/
theorem C2_witness :
    speedStep ⟨0, 0, 0⟩ 10 20 2 = (⟨10, 20, 2⟩, some (5, 10)) ∧
    speedStep ⟨0, 0, 0⟩ 10 20 (1 / 2) = (⟨0, 0, 0⟩, none) := by
  constructor
  · have h := (C2_speed_interval ⟨0, 0, 0⟩ 10 20 2).2 (by norm_num)
    rw [h]
    norm_num
  · exact (C2_speed_interval ⟨0, 0, 0⟩ 10 20 (1 / 2)).1 (by norm_num)

/-- C3 counterexample: with the baseline at `last_rx = 100` and a current
counter of `40` (a counter reset) over a 2-second interval, the code emits a
rate of `-30` — a negative rate, not the reset-to-zero the claim states, and
the baseline is overwritten with the smaller counters. -/
theorem C3_counterexample :
    speedStep ⟨100, 100, 0⟩ 40 100 2 = (⟨40, 100, 2⟩, some (-30, 0)) ∧
    ¬ ((-30 : ℚ) = 0) ∧ (-30 : ℚ) < 0 := by
  refine ⟨?_, by norm_num, by norm_num⟩
  have h := speedStep_ge_one ⟨100, 100, 0⟩ 40 100 2 (by norm_num)
  rw [h]
  norm_num

/-- C3 amended: when the current receive counter is smaller than the stored
baseline counter and at least 1 second elapsed, the code emits a strictly
negative receive rate (the signed difference divided by the interval, with no
reset-to-zero), and it still overwrites the baseline with the current
snapshot. -/
theorem C3_counter_decrease_negative (st : MonitorState) (rx tx : Int) (t : ℚ)
    (hdec : rx < st.last_rx) (hdur : t - st.last_time ≥ 1) :
    (speedStep st rx tx t).1 = ⟨rx, tx, t⟩ ∧
    ∃ s, (speedStep st rx tx t).2 = some s ∧ s.1 < 0 := by
  have h := speedStep_ge_one st rx tx t hdur
  rw [h]
  refine ⟨rfl, ⟨_, rfl, ?_⟩⟩
  apply div_neg_of_neg_of_pos
  · have : (rx - st.last_rx : Int) < 0 := by omega
    exact_mod_cast this
  · linarith

/-- Witness for the amended C3 at the counterexample input. -/
theorem C3_witness :
    (speedStep ⟨100, 100, 0⟩ 40 100 2).1 = ⟨40, 100, 2⟩ ∧
    ∃ s, (speedStep ⟨100, 100, 0⟩ 40 100 2).2 = some s ∧ s.1 < 0 :=
  C3_counter_decrease_negative ⟨100, 100, 0⟩ 40 100 2 (by norm_num) (by norm_num)

/-- C4 counterexample: a completed process with a non-zero exit code does not
make `AdbWorker.run_cmd` return a failure — its (stripped) stdout is returned
unchanged, because the `subprocess.run` call checks neither the exit code nor
a timeout. -/
theorem C4_counterexample :
    runCmd "adb" (.completed 1 "error: device offline") = some "error: device offline" ∧
    runCmd "adb" (.completed 1 "error: device offline") ≠ none := by
  constructor
  · rfl
  · intro h
    simp [runCmd] at h

/-- C4 amended: `AdbWorker.run_cmd` returns `None` exactly when the tool path
is unset or the spawn raised an exception; a completed process returns its
stripped stdout regardless of the exit code (no timeout is configured, so a
timeout outcome does not exist); and when a device handle is known the
assembled command includes the `-s <deviceId>` selector. -/
theorem C4_runCmd_failure_model :
    (∀ p msg, runCmd p (.raised msg) = none) ∧
    (∀ code out, runCmd "" (.completed code out) = none) ∧
    (∀ p code out, p ≠ "" → runCmd p (.completed code out) = some (pyStrip out)) ∧
    (∀ p d args, d ≠ "" → build_cmd p (some d) args = [p, "-s", d] ++ args) ∧
    (∀ p args, build_cmd p none args = [p] ++ args) := by
  refine ⟨?_, ?_, ?_, ?_, ?_⟩
  · intro p msg
    by_cases h : p = "" <;> simp [runCmd, h]
  · intro code out
    simp [runCmd]
  · intro p code out h
    simp [runCmd, h]
  · intro p d args h
    simp [build_cmd, h]
  · intro p args
    simp [build_cmd]

/-- Witness for the amended C4 at concrete inputs. -/
theorem C4_witness :
    runCmd "adb" (.raised "FileNotFoundError") = none ∧
    runCmd "adb" (.completed 1 " out ") = some (pyStrip " out ") ∧
    build_cmd "adb" (some "dev1") ["shell", "ls"] = ["adb", "-s", "dev1", "shell", "ls"] :=
  ⟨C4_runCmd_failure_model.1 "adb" "FileNotFoundError",
   C4_runCmd_failure_model.2.2.1 "adb" 1 " out " (by decide),
   C4_runCmd_failure_model.2.2.2.1 "adb" "dev1" ["shell", "ls"] (by decide)⟩

/-- C5: within a stretch of events containing no fresh test start, at most
one capture job is launched (none if the flag is already set); the
`has_triggered_bugreport` flag is reset by a fresh start, untouched by a
resume, and set by the failure that launches a capture — so a second failure
in the same session never launches a second capture. -/
theorem C5_capture_once_per_session :
    (∀ flag es, (∀ e ∈ es, e ≠ SessionEvent.freshStart) →
        captureCount flag es ≤ if flag then 0 else 1) ∧
    (∀ flag, (sessionStep flag .resume).1 = flag) ∧
    (∀ flag, (sessionStep flag .freshStart).1 = false) ∧
    (∀ flag brand, (sessionStep flag (.netError brand)).2 = true →
        (sessionStep flag (.netError brand)).1 = true) := by
  refine ⟨?_, fun _ => rfl, fun _ => rfl, ?_⟩
  · intro flag es h
    induction es generalizing flag with
    | nil => simp [captureCount]
    | cons e es ih =>
      have he : e ≠ SessionEvent.freshStart := h e (List.mem_cons_self e es)
      have hes : ∀ x ∈ es, x ≠ SessionEvent.freshStart :=
        fun x hx => h x (List.mem_cons_of_mem e hx)
      cases e with
      | freshStart => exact absurd rfl he
      | resume =>
        simpa [captureCount, sessionStep] using ih flag hes
      | netError brand =>
        cases hflag : flag with
        | true =>
          have h1 := ih true hes
          simpa [captureCount, sessionStep, on_net_error] using h1
        | false =>
          cases hx : is_xiaomi brand with
          | true =>
            have h1 := ih true hes
            simp [captureCount, sessionStep, on_net_error, hx] at h1 ⊢
            omega
          | false =>
            have h1 := ih false hes
            simpa [captureCount, sessionStep, on_net_error, hx] using h1
  · intro flag brand
    cases flag with
    | true => intro h; simp [sessionStep, on_net_error] at h
    | false =>
      cases hx : is_xiaomi brand with
      | true => intro h; simp [sessionStep, on_net_error, hx]
      | false => intro h; simp [sessionStep, on_net_error, hx] at h

/-- Witness for C5: starting with the flag clear, two Redmi-brand failures in
a row launch at most one capture. -/
theorem C5_witness :
    captureCount false
      [SessionEvent.netError (some "Redmi Note 12"),
       SessionEvent.netError (some "Redmi Note 12")] ≤ if false then 0 else 1 :=
  C5_capture_once_per_session.1 false
    [SessionEvent.netError (some "Redmi Note 12"),
     SessionEvent.netError (some "Redmi Note 12")] (by decide)

/-- C6: with the trigger flag clear, `on_net_error` launches a capture iff the
brand string is truthy and its lowercasing contains "xiaomi" or "redmi";
whenever no capture is launched the critical error box is shown immediately;
"Redmi Note 12" matches, "Pixel 7" does not, and an absent or empty brand
does not. -/
theorem C6_brand_predicate :
    (∀ flag brand, flag = false →
        ((on_net_error flag brand).2.1 = true ↔ is_xiaomi brand = true)) ∧
    (∀ flag brand, (on_net_error flag brand).2.1 = false →
        (on_net_error flag brand).2.2 = true) ∧
    is_xiaomi (some "Redmi Note 12") = true ∧
    is_xiaomi (some "Pixel 7") = false ∧
    is_xiaomi none = false ∧
    is_xiaomi (some "") = false := by
  refine ⟨?_, ?_, by decide, by decide, rfl, by decide⟩
  · intro flag brand hflag
    subst hflag
    cases hx : is_xiaomi brand <;> simp [on_net_error, hx]
  · intro flag brand
    cases flag with
    | true => intro h; simp [on_net_error]
    | false =>
      cases hx : is_xiaomi brand with
      | true => intro h; simp [on_net_error, hx] at h
      | false => intro h; simp [on_net_error, hx]

/-- Witness for C6: a clear flag and brand "Redmi Note 12" launch a capture. -/
theorem C6_witness :
    (on_net_error false (some "Redmi Note 12")).2.1 = true :=
  (C6_brand_predicate.1 false (some "Redmi Note 12") rfl).mpr (by decide)

/-- A list is a prefix of itself followed by anything. -/
theorem isPrefixOf_append_self (l t : List Char) : l.isPrefixOf (l ++ t) = true := by
  induction l with
  | nil => simp [List.isPrefixOf]
  | cons a as ih => simp [List.isPrefixOf, ih]

/-- Containment holds whenever the needle is a prefix of the haystack. -/
theorem listContains_of_pre (n l : List Char) (h : n.isPrefixOf l = true) :
    listContains n l = true := by
  cases l with
  | nil =>
    cases n with
    | nil => rfl
    | cons a as => simp [List.isPrefixOf] at h
  | cons c rest => simp [listContains, h]

/-- Containment finds a needle placed anywhere inside a haystack. -/
theorem listContains_append (n pre suf : List Char) :
    listContains n (pre ++ (n ++ suf)) = true := by
  induction pre with
  | nil => exact listContains_of_pre n (n ++ suf) (isPrefixOf_append_self n suf)
  | cons c cs ih => simp [listContains, ih]

/-- Python `in` finds a needle when the haystack visibly contains it. -/
theorem pyIn_of_toList (n hay : String) (pre suf : List Char)
    (h : hay.toList = pre ++ (n.toList ++ suf)) : pyIn n hay = true := by
  unfold pyIn
  rw [h]
  exact listContains_append _ _ _

/-- A string of the form `a ++ "/" ++ b` is never empty. -/
theorem append_slash_ne_empty (a b : String) : a ++ "/" ++ b ≠ "" := by
  intro h
  have h2 : (a.data ++ '/' :: []) ++ b.data = ([] : List Char) := congrArg String.data h
  rcases List.append_eq_nil.mp h2 with ⟨h3, _⟩
  rcases List.append_eq_nil.mp h3 with ⟨_, h4⟩
  exact List.cons_ne_nil _ _ h4

/-- C7 counterexample: when the capture job raises (here an adb error), the
completion event replaces the original network-failure reason with the
exception text, so the final user-visible message no longer contains the
triggering reason "网络连接断开！Ping 丢包。" — the claim that both outcomes
keep the original reason is false. -/
theorem C7_counterexample :
    pyIn "网络连接断开！Ping 丢包。"
      (on_bugreport_finished
        (bugreport_emit "2026-10-12" (some "M2007J3SC") "/app" "网络连接断开！Ping 丢包。"
          (.failure "AdbError: device offline")).1
        (bugreport_emit "2026-10-12" (some "M2007J3SC") "/app" "网络连接断开！Ping 丢包。"
          (.failure "AdbError: device offline")).2) = false := by
  decide

/-- C7 amended: on success the completion event carries the save path and the
original triggering reason, and the final message contains both; on a capture
error the event carries an empty path and the exception text in place of the
original reason, and the final message contains that capture-error
description (twice substituted for the reason) but not, in general, the
original reason. -/
theorem C7_completion_message :
    (∀ date m base orig,
      (bugreport_emit date m base orig .success).2 = orig ∧
      (bugreport_emit date m base orig .success).1 ≠ "" ∧
      pyIn orig (on_bugreport_finished (bugreport_emit date m base orig .success).1
        (bugreport_emit date m base orig .success).2) = true ∧
      pyIn (bugreport_emit date m base orig .success).1
        (on_bugreport_finished (bugreport_emit date m base orig .success).1
          (bugreport_emit date m base orig .success).2) = true) ∧
    (∀ date m base orig e,
      bugreport_emit date m base orig (.failure e) = ("", e) ∧
      pyIn e (on_bugreport_finished "" e) = true) := by
  constructor
  · intro date m base orig
    have hne : (bugreport_emit date m base orig .success).1 ≠ "" :=
      append_slash_ne_empty base _
    have hb : ((bugreport_emit date m base orig .success).1 == "") = false :=
      beq_eq_false_iff_ne.mpr hne
    refine ⟨rfl, hne, ?_, ?_⟩
    · show pyIn orig (on_bugreport_finished (bugreport_emit date m base orig .success).1 orig) = true
      unfold on_bugreport_finished
      rw [hb]
      apply pyIn_of_toList
      show ("❌ 检测到网络故障！\n\n".data ++ orig.data ++ "\n\n✅ 系统日志已保存至:\n".data)
          ++ (bugreport_emit date m base orig .success).1.data =
        "❌ 检测到网络故障！\n\n".data ++ (orig.data ++ ("\n\n✅ 系统日志已保存至:\n".data
          ++ (bugreport_emit date m base orig .success).1.data))
      simp [List.append_assoc]
    · show pyIn (bugreport_emit date m base orig .success).1
        (on_bugreport_finished (bugreport_emit date m base orig .success).1 orig) = true
      unfold on_bugreport_finished
      rw [hb]
      refine pyIn_of_toList _ _
        ("❌ 检测到网络故障！\n\n".data ++ orig.data ++ "\n\n✅ 系统日志已保存至:\n".data) [] ?_
      show ("❌ 检测到网络故障！\n\n".data ++ orig.data ++ "\n\n✅ 系统日志已保存至:\n".data)
          ++ (bugreport_emit date m base orig .success).1.data =
        ("❌ 检测到网络故障！\n\n".data ++ orig.data ++ "\n\n✅ 系统日志已保存至:\n".data)
          ++ ((bugreport_emit date m base orig .success).1.data ++ [])
      simp
  · intro date m base orig e
    refine ⟨rfl, ?_⟩
    show pyIn e (on_bugreport_finished "" e) = true
    have hmsg : on_bugreport_finished "" e =
        "❌ 检测到网络故障！\n\n" ++ e ++ "\n\n⚠️ 日志抓取失败: " ++ e := rfl
    rw [hmsg]
    apply pyIn_of_toList
    show ("❌ 检测到网络故障！\n\n".data ++ e.data ++ "\n\n⚠️ 日志抓取失败: ".data) ++ e.data =
      "❌ 检测到网络故障！\n\n".data ++ (e.data ++ ("\n\n⚠️ 日志抓取失败: ".data ++ e.data))
    simp [List.append_assoc]

/-- While the same first device id keeps being enumerated, the polling loop
emits nothing. -/
theorem pollRun_same (d : String) (tail : List String) (n : Nat) :
    pollRun (some d) (List.replicate n (d :: tail)) = (some d, []) := by
  induction n with
  | zero => rfl
  | succ k ih => simp [List.replicate_succ, pollRun, presenceStep, ih]

/-- C8: over a window of polls that all enumerate the same first device id, a
single `connected` event fires, on the first poll that sees the id (from any
prior state not already holding it); a poll showing a different first id
fires `connected` with the new id; a poll showing no devices while an id is
held fires `disconnected`. -/
theorem C8_presence_dedup :
    (∀ st d tail n, st ≠ some d →
        pollRun st (List.replicate (n + 1) (d :: tail)) =
          (some d, [PresenceEvent.connected d])) ∧
    (∀ d d2 rest, d ≠ d2 →
        presenceStep (some d) (d2 :: rest) = (some d2, some (.connected d2))) ∧
    (∀ d, presenceStep (some d) [] = (none, some .disconnected)) := by
  refine ⟨?_, ?_, fun d => rfl⟩
  · intro st d tail n hne
    simp [List.replicate_succ, pollRun, presenceStep, hne, pollRun_same]
  · intro d d2 rest hne
    simp [presenceStep, hne]

/-- Witness for C8: from no device, two identical polls of device "ABC123"
emit exactly one `connected` event; a poll showing "XYZ" instead fires a new
`connected` event. -/
theorem C8_witness :
    pollRun none (List.replicate 2 ["ABC123"]) =
      (some "ABC123", [PresenceEvent.connected "ABC123"]) ∧
    presenceStep (some "ABC123") ["XYZ", "other"] =
      (some "XYZ", some (.connected "XYZ")) :=
  ⟨C8_presence_dedup.1 none "ABC123" [] 1 (by decide),
   C8_presence_dedup.2.1 "ABC123" "XYZ" ["other"] (by decide)⟩

/-- Fold form: `trafficTotals` is the pair of sums of the per-line contributions. -/
theorem trafficTotals_eq_sum (lines : List String) :
    trafficTotals lines = ((lines.map fun l => (lineStats l).1).sum,
                           (lines.map fun l => (lineStats l).2).sum) := by
  suffices h : ∀ init : Int × Int,
      lines.foldl (fun acc line => (acc.1 + (lineStats line).1, acc.2 + (lineStats line).2)) init
        = (init.1 + (lines.map fun l => (lineStats l).1).sum,
           init.2 + (lines.map fun l => (lineStats l).2).sum) by
    simpa [trafficTotals] using h (0, 0)
  intro init
  induction lines generalizing init with
  | nil => simp
  | cons a as ih => simp [List.foldl_cons, ih, add_assoc]

/-- C9: the traffic parser takes receive bytes from post-colon field 0 and
transmit bytes from post-colon field 8, skips the loopback interface and
malformed data (fewer than 9 fields, or non-numeric fields 0/8), a skipped
line leaves the totals of the other lines untouched, and on a sample
`/proc/net/dev` output only the non-loopback interfaces are summed. -/
theorem C9_traffic_parse :
    (∀ iface data rx tx, iface ≠ "lo" → data.length ≥ 9 →
        pyInt (data.getD 0 "") = some rx → pyInt (data.getD 8 "") = some tx →
        dataStats iface data = (rx, tx)) ∧
    (∀ data, dataStats "lo" data = (0, 0)) ∧
    (∀ iface data, data.length < 9 → dataStats iface data = (0, 0)) ∧
    (∀ pre post mal, lineStats mal = (0, 0) →
        trafficTotals (pre ++ mal :: post) = trafficTotals (pre ++ post)) ∧
    get_traffic_stats (some ("Inter-|   Receive | Transmit\n face |bytes packets errs\n    lo: 100 1 0 0 0 0 0 0 100 1 0 0 0 0 0 0\n wlan0: 1000 5 0 0 0 0 0 0 2000 7 0 0 0 0 0 0\n  eth0: 10 1 0 0 0 0 0 0 20 2 0 0 0 0 0 0\nbadline\nrmnet0: 7 3")) = (1010, 2020) := by
  refine ⟨?_, fun data => rfl, ?_, ?_, by decide⟩
  · intro iface data rx tx h1 h2 h3 h4
    have hb : (iface == "lo") = false := beq_eq_false_iff_ne.mpr h1
    unfold dataStats
    rw [hb, if_neg (by simp), if_pos h2, h3, h4]
  · intro iface data h
    unfold dataStats
    split
    · rfl
    · rw [if_neg (by omega)]
  · intro pre post mal h
    rw [trafficTotals_eq_sum, trafficTotals_eq_sum]
    simp [h]

/-- Witness for C9 on one well-formed wlan0 field list. -/
theorem C9_witness :
    dataStats "wlan0" ["1000", "5", "0", "0", "0", "0", "0", "0", "2000"] = (1000, 2000) :=
  C9_traffic_parse.1 "wlan0" ["1000", "5", "0", "0", "0", "0", "0", "0", "2000"] 1000 2000
    (by decide) (by decide) (by decide) (by decide)

/-- C10: the status phrase "无默认路由" tested by the start-test warning branch
is never a substring of any output of `AdbWorker.get_network_type`, whatever
the ping, dumpsys and ip-address command results are — the warning branch is
dead. -/
theorem C10_no_default_route_dead :
    ∀ ping_res wifi_dump ip_info,
      pyIn "无默认路由" (get_network_type ping_res wifi_dump ip_info) = false := by
  have key : ∀ w m e hi, pyIn "无默认路由" (render_status (classify_types w m e) hi) = false := by
    decide
  intro p w i
  cases hti : truthy i with
  | true =>
    simpa [get_network_type, hti] using
      key (pyIn "wlan" (i.getD "")) (pyIn "rmnet" (i.getD "") || pyIn "ccmni" (i.getD ""))
        (pyIn "eth" (i.getD "")) (truthy p && pyIn "1 received" (p.getD ""))
  | false =>
    simpa [get_network_type, classify_types, hti] using
      key false false false (truthy p && pyIn "1 received" (p.getD ""))

end OTG
